import Mathlib

/-!
# Verification of the aide-next RTDB→Firestore migration pipeline

Shallow embedding of the migration script (`migrate-rtdb-to-firestore.ts`),
the Telegram utilities, and the energy-alert evaluator.  JavaScript objects
are modelled as association lists (`List (key × value)`) in enumeration
order, JavaScript numbers as `ℚ`, absent/`null` values as `Option`, and
thrown exceptions as `Except`.  External I/O outcomes (commit success,
read failures, Telegram API responses) are inputs to the model.
-/

namespace AideNext

/-- A JavaScript object holding numeric fields, in key-enumeration order
(the shape of one raw daily reading in RTDB). -/
abbrev JsObj := List (String × ℚ)

/-! ## Record Transformer: devices (`migrateDevices`, part_001 lines 88–127) -/

/-- Source (RTDB) device record: `interface RTDBDevice`.  `user_ids` is a
set-as-mapping `Record<string, boolean>`; `Option` models absent fields. -/
structure RTDBDevice where
  name : String
  isOn : Option Bool
  energyLimit : Option ℚ
  lastUpdated : Option ℕ
  userIds : Option (List (String × Bool))
  deriving Repr, DecidableEq

/-- `last_updated` written to Firestore: the source value when truthy, else
`admin.firestore.FieldValue.serverTimestamp()`. -/
inductive FsTimestamp where
  | val (t : ℕ)
  | server
  deriving Repr, DecidableEq

/-- Destination (Firestore) device document, as written by `migrateDevices`. -/
structure FirestoreDevice where
  name : String
  isOn : Bool
  energyLimit : ℚ
  lastUpdated : FsTimestamp
  userIds : List String
  deriving Repr, DecidableEq

/-- `user_ids` map → array conversion in `migrateDevices`:
`device.user_ids ? Object.keys(device.user_ids).filter(id => id) : []`.
`Object.keys` takes the keys in order; `.filter(id => id)` drops the only
falsy string, the empty string. -/
def userIdsArray (userIds : Option (List (String × Bool))) : List String :=
  match userIds with
  | none => []
  | some m => (m.map Prod.fst).filter (fun id => id ≠ "")

/-- The document written for one device by `migrateDevices`:
`isOn` defaults to `true` only when absent (`!== undefined` check),
`energyLimit` defaults through `|| 0` (so a falsy `0` stays `0`),
`last_updated` falls back to the server timestamp when falsy. -/
def transformDevice (d : RTDBDevice) : FirestoreDevice where
  name := d.name
  isOn := d.isOn.getD true
  energyLimit := d.energyLimit.getD 0
  lastUpdated :=
    match d.lastUpdated with
    | none => FsTimestamp.server
    | some t => if t = 0 then FsTimestamp.server else FsTimestamp.val t
  userIds := userIdsArray d.userIds

/-- A Firestore collection of documents: contents plus the set of document
ids present (`size` of a collection snapshot is the card of the id set). -/
structure DocStore (V : Type) where
  docs : String → Option V
  dom : Finset String

/-- `collection.doc(id).set(doc)`: whole-document overwrite. -/
def DocStore.set {V : Type} (s : DocStore V) (id : String) (v : V) : DocStore V where
  docs := fun k => if k = id then some v else s.docs k
  dom := insert id s.dom

/-- Per-collection tally returned by `migrateUsers` / `migrateDevices`. -/
structure MigTally where
  migratedCount : ℕ
  errorCount : ℕ
  deriving Repr, DecidableEq

/-- One step of the `migrateDevices` loop: the `try` block transforms the
device and issues the `set`; a write failure (`writeOk` false for this id)
is caught and counted, and iteration continues. -/
def migrateDevicesStep (writeOk : String → Bool)
    (acc : DocStore FirestoreDevice × MigTally) (p : String × RTDBDevice) :
    DocStore FirestoreDevice × MigTally :=
  if writeOk p.1 then
    (acc.1.set p.1 (transformDevice p.2),
     { acc.2 with migratedCount := acc.2.migratedCount + 1 })
  else
    (acc.1, { acc.2 with errorCount := acc.2.errorCount + 1 })

/-- `migrateDevices` (part_001 lines 88–127): iterate the source `devices`
object in enumeration order, writing one Firestore document per device and
tallying successes and caught per-record failures. -/
def migrateDevices (devices : List (String × RTDBDevice)) (writeOk : String → Bool)
    (dest : DocStore FirestoreDevice) : DocStore FirestoreDevice × MigTally :=
  devices.foldl (migrateDevicesStep writeOk) (dest, ⟨0, 0⟩)

/-! ## Daily readings migrator (`migrateDailyReadings`, part_001 lines 129–207) -/

/-- One raw daily reading under `readings_daily/{deviceId}/{timestamp}`:
`null` or an object of numeric fields. -/
abbrev RawReading := Option JsObj

/-- The skip test `!reading || Object.keys(reading).length === 0`. -/
def isEmptyReading (r : RawReading) : Bool :=
  match r with
  | none => true
  | some o => o.isEmpty

/-- Transformed daily reading document; each field is `reading.f || 0`
(absent → 0, and a falsy present 0 stays 0). -/
structure FsReading where
  current : ℚ
  energy : ℚ
  frequency : ℚ
  power : ℚ
  powerFactor : ℚ
  voltage : ℚ
  deriving Repr, DecidableEq

/-- The document built for `batch.set` from one non-empty raw reading. -/
def transformReading (o : JsObj) : FsReading where
  current := (o.lookup "current").getD 0
  energy := (o.lookup "energy").getD 0
  frequency := (o.lookup "frequency").getD 0
  power := (o.lookup "power").getD 0
  powerFactor := (o.lookup "power_factor").getD 0
  voltage := (o.lookup "voltage").getD 0

/-- One queued write in a `WriteBatch`: the target document
`item-data/{deviceId}/daily/{timestamp}` and its contents. -/
structure BatchWrite where
  deviceId : String
  timestamp : String
  doc : FsReading
  deriving Repr, DecidableEq

/-- One issued `batch.commit()`: the submitted writes and whether the
destination store accepted them (a failed commit is all-or-nothing). -/
structure Commit where
  writes : List BatchWrite
  ok : Bool
  deriving Repr, DecidableEq

/-- A `firestore.batch()` handle: its queued writes and whether `commit()`
has been called.  The Firestore SDK marks a batch committed as soon as
`commit()` starts and throws on any later `set` or `commit` on it. -/
structure WriteBatch where
  writes : List BatchWrite
  committed : Bool
  deriving Repr, DecidableEq

/-- State carried through one device's reading loop in
`migrateDailyReadings`: the (single) batch handle, `batchCount`,
`deviceReadingCount`, plus the run-wide commit trace and `errorCount`. -/
structure DevLoopState where
  batch : WriteBatch
  batchCount : ℕ
  deviceReadingCount : ℕ
  commits : List Commit
  errorCount : ℕ
  deriving Repr, DecidableEq

/-- The trailing `if (batchCount > 0) { try { await batch.commit() } ... }`
of one device's loop.  A commit on an already-committed batch throws
synchronously inside the `try` and is counted as an error without reaching
the store. -/
def finishDevice (commitOk : ℕ → Bool) (st : DevLoopState) : DevLoopState :=
  if st.batchCount > 0 then
    if st.batch.committed then
      { st with errorCount := st.errorCount + 1 }
    else
      { st with
        batch := { st.batch with committed := true },
        commits := st.commits ++ [⟨st.batch.writes, commitOk st.commits.length⟩],
        errorCount := if commitOk st.commits.length then st.errorCount
          else st.errorCount + 1 }
  else st

/-- One non-empty reading's `batch.set` (on a batch that is not yet
committed) followed by the in-loop commit when `batchCount` reaches 500.
On commit success `batchCount` is reset to 0; on a caught commit failure it
is not.  Either way the batch handle is now committed and is never
re-created. -/
def queueReading (commitOk : ℕ → Bool) (deviceId ts : String) (o : JsObj)
    (st : DevLoopState) : DevLoopState :=
  if st.batchCount + 1 ≥ 500 then
    { batch := ⟨st.batch.writes ++ [⟨deviceId, ts, transformReading o⟩], true⟩,
      batchCount := if commitOk st.commits.length then 0 else st.batchCount + 1,
      deviceReadingCount := st.deviceReadingCount + 1,
      commits := st.commits ++
        [⟨st.batch.writes ++ [⟨deviceId, ts, transformReading o⟩],
          commitOk st.commits.length⟩],
      errorCount := if commitOk st.commits.length then st.errorCount
        else st.errorCount + 1 }
  else
    { batch := ⟨st.batch.writes ++ [⟨deviceId, ts, transformReading o⟩], false⟩,
      batchCount := st.batchCount + 1,
      deviceReadingCount := st.deviceReadingCount + 1,
      commits := st.commits,
      errorCount := st.errorCount }

/-- The `for (const [timestamp, reading] of Object.entries(readingsMap))`
loop of `migrateDailyReadings`, followed by the final partial commit.
`commitOk n` tells whether the `n`-th commit of the whole run is accepted.
Faithful to the source: the batch is created once per device and never
re-created, so once the in-loop commit at 500 writes has run, the next
`batch.set` throws ("Cannot modify a WriteBatch that has been committed"),
which nothing in this function catches — modelled as `Except.error`. -/
def readingsLoop (commitOk : ℕ → Bool) (deviceId : String) :
    List (String × RawReading) → DevLoopState → Except Unit DevLoopState
  | [], st => Except.ok (finishDevice commitOk st)
  | (ts, r) :: rest, st =>
    match r with
    | none => readingsLoop commitOk deviceId rest st
    | some o =>
      if o.isEmpty then readingsLoop commitOk deviceId rest st
      else if st.batch.committed then Except.error ()
      else readingsLoop commitOk deviceId rest (queueReading commitOk deviceId ts o st)

/-- Result of `migrateDailyReadings`, extended with the commit trace the
run issued to the destination store. -/
structure ReadingsResult where
  totalReadings : ℕ
  totalDevices : ℕ
  errorCount : ℕ
  commits : List Commit
  deriving Repr, DecidableEq

/-- The outer `for (const [deviceId, readings] of Object.entries(devices))`
loop: a fresh batch per device, accumulating `totalReadings`,
`totalDevices` and the shared `errorCount`. -/
def migrateReadingsDevices (commitOk : ℕ → Bool) :
    List (String × List (String × RawReading)) → ReadingsResult →
    Except Unit ReadingsResult
  | [], acc => Except.ok acc
  | (deviceId, rs) :: rest, acc =>
    match readingsLoop commitOk deviceId rs ⟨⟨[], false⟩, 0, 0, acc.commits, acc.errorCount⟩ with
    | Except.error e => Except.error e
    | Except.ok st =>
      migrateReadingsDevices commitOk rest
        { totalReadings := acc.totalReadings + st.deviceReadingCount,
          totalDevices := acc.totalDevices + 1,
          errorCount := st.errorCount,
          commits := st.commits }

/-- `migrateDailyReadings` (part_001 lines 129–207). -/
def migrateDailyReadings (devices : List (String × List (String × RawReading)))
    (commitOk : ℕ → Bool) : Except Unit ReadingsResult :=
  migrateReadingsDevices commitOk devices ⟨0, 0, 0, []⟩

/-- Number of non-empty readings in one device's readings map — the readings
the loop actually `batch.set`s and counts. -/
def countNonEmpty : List (String × RawReading) → ℕ
  | [] => 0
  | (_, r) :: rest => (if isEmptyReading r then 0 else 1) + countNonEmpty rest

/-- The writes the loop queues for one device, in order: exactly the
transforms of its non-empty readings. -/
def deviceWrites (deviceId : String) : List (String × RawReading) → List BatchWrite
  | [] => []
  | (ts, r) :: rest =>
    match r with
    | none => deviceWrites deviceId rest
    | some o =>
      if o.isEmpty then deviceWrites deviceId rest
      else ⟨deviceId, ts, transformReading o⟩ :: deviceWrites deviceId rest

/-- All writes submitted to the destination store by a trace of commits,
in submission order. -/
def commitsWrites (cs : List Commit) : List BatchWrite :=
  (cs.map Commit.writes).flatten

/-- Writes queued in the loop's batch handle but not yet submitted. -/
def pendingWrites (st : DevLoopState) : List BatchWrite :=
  if st.batch.committed then [] else st.batch.writes

theorem commitsWrites_append (cs : List Commit) (c : Commit) :
    commitsWrites (cs ++ [c]) = commitsWrites cs ++ c.writes := by
  simp [commitsWrites]

/-- Well-formedness of the loop state: while the batch is uncommitted,
`batchCount` counts exactly its queued writes. -/
def WfState (st : DevLoopState) : Prop :=
  st.batch.committed = false → st.batchCount = st.batch.writes.length

theorem finishDevice_drc (commitOk : ℕ → Bool) (st : DevLoopState) :
    (finishDevice commitOk st).deviceReadingCount = st.deviceReadingCount := by
  unfold finishDevice
  split <;> [skip; rfl]
  split <;> rfl

theorem queueReading_drc (commitOk : ℕ → Bool) (d ts : String) (o : JsObj)
    (st : DevLoopState) :
    (queueReading commitOk d ts o st).deviceReadingCount =
      st.deviceReadingCount + 1 := by
  unfold queueReading
  split <;> rfl

theorem finishDevice_writes (commitOk : ℕ → Bool) {st : DevLoopState}
    (hwf : WfState st) :
    commitsWrites (finishDevice commitOk st).commits =
      commitsWrites st.commits ++ pendingWrites st := by
  unfold finishDevice
  split
  · split
    · next hcom => simp [pendingWrites, hcom]
    · next hcom =>
        simp only [Bool.not_eq_true] at hcom
        simp [pendingWrites, hcom, commitsWrites_append]
  · next hbc =>
      by_cases hcom : st.batch.committed
      · simp [pendingWrites, hcom]
      · simp only [Bool.not_eq_true] at hcom
        have hlen : st.batch.writes.length = 0 := by
          have := hwf hcom
          omega
        simp [pendingWrites, hcom, List.eq_nil_of_length_eq_zero hlen]

theorem queueReading_writes (commitOk : ℕ → Bool) (d ts : String) (o : JsObj)
    {st : DevLoopState} (hcom : st.batch.committed = false) :
    commitsWrites (queueReading commitOk d ts o st).commits ++
        pendingWrites (queueReading commitOk d ts o st) =
      commitsWrites st.commits ++ pendingWrites st ++
        [⟨d, ts, transformReading o⟩] := by
  unfold queueReading
  split
  · simp [pendingWrites, hcom, commitsWrites_append, List.append_assoc]
  · simp [pendingWrites, hcom, List.append_assoc]

theorem queueReading_wf (commitOk : ℕ → Bool) (d ts : String) (o : JsObj)
    {st : DevLoopState} (hwf : WfState st) (hcom : st.batch.committed = false) :
    WfState (queueReading commitOk d ts o st) := by
  unfold queueReading
  split
  · intro hfalse
    simp at hfalse
  · intro _
    simp [hwf hcom]

theorem finishDevice_errors {commitOk : ℕ → Bool} {st : DevLoopState}
    (hall : ∀ n, commitOk n = true)
    (hcb : st.batch.committed = true → st.batchCount = 0) :
    (finishDevice commitOk st).errorCount = st.errorCount := by
  unfold finishDevice
  split
  · next hbc =>
      split
      · next hcom => exact absurd (hcb hcom) (by omega)
      · simp [hall]
  · rfl

theorem queueReading_errors {commitOk : ℕ → Bool} (d ts : String) (o : JsObj)
    (st : DevLoopState) (hall : ∀ n, commitOk n = true) :
    (queueReading commitOk d ts o st).errorCount = st.errorCount := by
  unfold queueReading
  split <;> simp [hall]

theorem queueReading_committed_zero {commitOk : ℕ → Bool} (d ts : String)
    (o : JsObj) (st : DevLoopState) (hall : ∀ n, commitOk n = true) :
    (queueReading commitOk d ts o st).batch.committed = true →
      (queueReading commitOk d ts o st).batchCount = 0 := by
  unfold queueReading
  split
  · intro _
    simp [hall]
  · intro hfalse
    simp at hfalse

theorem finishDevice_pending (commitOk : ℕ → Bool) {st : DevLoopState}
    (hwf : WfState st) :
    pendingWrites (finishDevice commitOk st) = [] := by
  unfold finishDevice
  split
  · split
    · next hcom => simp [pendingWrites, hcom]
    · simp [pendingWrites]
  · next hbc =>
      by_cases hcom : st.batch.committed
      · simp [pendingWrites, hcom]
      · simp only [Bool.not_eq_true] at hcom
        have hlen : st.batch.writes.length = 0 := by
          have := hwf hcom
          omega
        simp [pendingWrites, hcom, List.eq_nil_of_length_eq_zero hlen]

/-- At the end of a device loop nothing is left pending: the final partial
commit flushed (or the batch was already committed). -/
theorem readingsLoop_ok_pending {commitOk : ℕ → Bool} {d : String}
    {rs : List (String × RawReading)} {st st' : DevLoopState}
    (h : readingsLoop commitOk d rs st = Except.ok st')
    (hwf : WfState st) :
    pendingWrites st' = [] := by
  induction rs generalizing st with
  | nil =>
    simp only [readingsLoop] at h
    cases h
    exact finishDevice_pending commitOk hwf
  | cons p rest ih =>
    obtain ⟨ts, r⟩ := p
    cases r with
    | none =>
      simp only [readingsLoop] at h
      exact ih h hwf
    | some o =>
      simp only [readingsLoop] at h
      by_cases he : o.isEmpty
      · rw [if_pos he] at h
        exact ih h hwf
      · rw [if_neg he] at h
        by_cases hc : st.batch.committed
        · simp [hc] at h
        · simp only [Bool.not_eq_true] at hc
          rw [if_neg (by simp [hc])] at h
          exact ih h (queueReading_wf commitOk d ts o hwf hc)

/-- A completed device loop counted exactly its non-empty readings. -/
theorem readingsLoop_ok_count {commitOk : ℕ → Bool} {d : String}
    {rs : List (String × RawReading)} {st st' : DevLoopState}
    (h : readingsLoop commitOk d rs st = Except.ok st') :
    st'.deviceReadingCount = st.deviceReadingCount + countNonEmpty rs := by
  induction rs generalizing st with
  | nil =>
    simp only [readingsLoop] at h
    cases h
    simp [finishDevice_drc, countNonEmpty]
  | cons p rest ih =>
    obtain ⟨ts, r⟩ := p
    cases r with
    | none =>
      simp only [readingsLoop] at h
      simpa [countNonEmpty, isEmptyReading] using ih h
    | some o =>
      simp only [readingsLoop] at h
      by_cases he : o.isEmpty
      · rw [if_pos he] at h
        simpa [countNonEmpty, isEmptyReading, he] using ih h
      · rw [if_neg he] at h
        by_cases hc : st.batch.committed
        · simp [hc] at h
        · simp only [Bool.not_eq_true] at hc
          rw [if_neg (by simp [hc])] at h
          have hstep := ih h
          rw [queueReading_drc] at hstep
          have hcne : countNonEmpty ((ts, some o) :: rest) = 1 + countNonEmpty rest := by
            simp [countNonEmpty, isEmptyReading, he]
          omega

/-- A completed device loop submitted to the store exactly the previously
issued writes, the pending batch contents, and the transforms of the
device's non-empty readings, in order. -/
theorem readingsLoop_ok_writes {commitOk : ℕ → Bool} {d : String}
    {rs : List (String × RawReading)} {st st' : DevLoopState}
    (h : readingsLoop commitOk d rs st = Except.ok st')
    (hwf : WfState st) :
    commitsWrites st'.commits ++ pendingWrites st' =
      commitsWrites st.commits ++ pendingWrites st ++ deviceWrites d rs := by
  induction rs generalizing st with
  | nil =>
    simp only [readingsLoop] at h
    cases h
    have hfin := finishDevice_writes commitOk hwf
    rw [finishDevice_pending commitOk hwf, hfin]
    simp [deviceWrites]
  | cons p rest ih =>
    obtain ⟨ts, r⟩ := p
    cases r with
    | none =>
      simp only [readingsLoop] at h
      simpa [deviceWrites] using ih h hwf
    | some o =>
      simp only [readingsLoop] at h
      by_cases he : o.isEmpty
      · rw [if_pos he] at h
        simpa [deviceWrites, he] using ih h hwf
      · rw [if_neg he] at h
        by_cases hc : st.batch.committed
        · simp [hc] at h
        · simp only [Bool.not_eq_true] at hc
          rw [if_neg (by simp [hc])] at h
          have hrec := ih h (queueReading_wf commitOk d ts o hwf hc)
          rw [queueReading_writes commitOk d ts o hc] at hrec
          simp only [deviceWrites, he, if_neg he]
          rw [hrec]
          simp [List.append_assoc]

/-- When every commit is accepted, a completed device loop adds no errors. -/
theorem readingsLoop_ok_errors {commitOk : ℕ → Bool} {d : String}
    {rs : List (String × RawReading)} {st st' : DevLoopState}
    (hall : ∀ n, commitOk n = true)
    (h : readingsLoop commitOk d rs st = Except.ok st')
    (hcb : st.batch.committed = true → st.batchCount = 0) :
    st'.errorCount = st.errorCount := by
  induction rs generalizing st with
  | nil =>
    simp only [readingsLoop] at h
    cases h
    exact finishDevice_errors hall hcb
  | cons p rest ih =>
    obtain ⟨ts, r⟩ := p
    cases r with
    | none =>
      simp only [readingsLoop] at h
      exact ih h hcb
    | some o =>
      simp only [readingsLoop] at h
      by_cases he : o.isEmpty
      · rw [if_pos he] at h
        exact ih h hcb
      · rw [if_neg he] at h
        by_cases hc : st.batch.committed
        · simp [hc] at h
        · simp only [Bool.not_eq_true] at hc
          rw [if_neg (by simp [hc])] at h
          have := ih h (queueReading_committed_zero d ts o st hall)
          rw [queueReading_errors d ts o st hall] at this
          exact this

/-- Accumulated form of the three device-loop facts over the outer loop. -/
theorem migrateReadingsDevices_ok {commitOk : ℕ → Bool}
    {devs : List (String × List (String × RawReading))} {acc r : ReadingsResult}
    (h : migrateReadingsDevices commitOk devs acc = Except.ok r) :
    r.totalReadings = acc.totalReadings + (devs.map (fun p => countNonEmpty p.2)).sum ∧
    commitsWrites r.commits =
      commitsWrites acc.commits ++ (devs.map (fun p => deviceWrites p.1 p.2)).flatten ∧
    ((∀ n, commitOk n = true) → r.errorCount = acc.errorCount) := by
  induction devs generalizing acc with
  | nil =>
    cases h
    simp
  | cons p rest ih =>
    obtain ⟨d, rs⟩ := p
    simp only [migrateReadingsDevices] at h
    cases hloop : readingsLoop commitOk d rs ⟨⟨[], false⟩, 0, 0, acc.commits, acc.errorCount⟩ with
    | error e =>
      rw [hloop] at h
      cases h
    | ok st =>
      rw [hloop] at h
      obtain ⟨ih1, ih2, ih3⟩ := ih h
      have hcount := readingsLoop_ok_count hloop
      have hwrites := readingsLoop_ok_writes hloop (by intro _; rfl)
      refine ⟨?_, ?_, ?_⟩
      · simp only [ih1, List.map_cons, List.sum_cons]
        simp only [hcount]
        omega
      · simp only [ih2, List.map_cons, List.flatten_cons]
        have hpend := readingsLoop_ok_pending hloop (by intro _; rfl)
        rw [hpend, List.append_nil] at hwrites
        have hinit : pendingWrites (⟨⟨[], false⟩, 0, 0, acc.commits, acc.errorCount⟩ : DevLoopState) = [] := rfl
        rw [hinit, List.append_nil] at hwrites
        simp only [hwrites]
        simp [List.append_assoc]
      · intro hall
        have herr := readingsLoop_ok_errors hall hloop (by intro hfalse; simp at hfalse)
        simpa [ih3 hall] using herr


/-! ## Users migrator (`migrateUsers`, part_001 lines 54–86) -/

/-- Source (RTDB) user record: `interface RTDBUser`. -/
structure RTDBUser where
  email : String
  username : String
  devices : Option (List (String × String))
  deriving Repr, DecidableEq

/-- Destination user document written by `migrateUsers`:
`devices: user.devices || {}`. -/
structure FirestoreUser where
  email : String
  username : String
  devices : List (String × String)
  deriving Repr, DecidableEq

/-- The document written for one user by `migrateUsers`. -/
def transformUser (u : RTDBUser) : FirestoreUser :=
  ⟨u.email, u.username, u.devices.getD []⟩

/-- One step of the `migrateUsers` loop (per-record `try`/`catch`). -/
def migrateUsersStep (writeOk : String → Bool)
    (acc : DocStore FirestoreUser × MigTally) (p : String × RTDBUser) :
    DocStore FirestoreUser × MigTally :=
  if writeOk p.1 then
    (acc.1.set p.1 (transformUser p.2),
     { acc.2 with migratedCount := acc.2.migratedCount + 1 })
  else
    (acc.1, { acc.2 with errorCount := acc.2.errorCount + 1 })

/-- `migrateUsers` (part_001 lines 54–86). -/
def migrateUsers (users : List (String × RTDBUser)) (writeOk : String → Bool)
    (dest : DocStore FirestoreUser) : DocStore FirestoreUser × MigTally :=
  users.foldl (migrateUsersStep writeOk) (dest, ⟨0, 0⟩)

/-! ## Telegram registry migrator (`migrateTelegramData`, part_001 lines 209–232) -/

/-- One entry of `telegram/active_chats` (source and destination shape). -/
structure ChatEntry where
  chatId : ℤ
  username : Option String
  firstName : Option String
  lastActive : ℕ
  addedAt : ℕ
  deriving Repr, DecidableEq

/-- The single destination document `telegram/active_chats` consolidating
the chat set and the last processed update id. -/
structure TelegramDoc where
  chats : List (String × ChatEntry)
  lastUpdateId : ℤ
  deriving Repr, DecidableEq

/-- Result of `migrateTelegramData`: `{chatCount}` or `{chatCount: 0, error}`. -/
structure TelegramResult where
  chatCount : ℕ
  hasError : Bool
  deriving Repr, DecidableEq

/-- `migrateTelegramData`: reads the chat set and the scalar cursor, writes
one aggregate document; any failure inside is caught at this whole-step
granularity and reported as `{chatCount: 0, error}`. -/
def migrateTelegramData (readChatsOk readLuiOk writeOk : Bool)
    (chats : List (String × ChatEntry)) (lastUpdateId : Option ℤ) :
    TelegramResult × Option TelegramDoc :=
  if readChatsOk && readLuiOk && writeOk then
    (⟨chats.length, false⟩, some ⟨chats, lastUpdateId.getD 0⟩)
  else
    (⟨0, true⟩, none)

/-! ## Validator (`validateMigration`, part_001 lines 234–282) -/

/-- The whole source (RTDB) dataset. -/
structure SourceData where
  users : List (String × RTDBUser)
  devices : List (String × RTDBDevice)
  readingsDaily : List (String × List (String × RawReading))

/-- Destination `daily` sub-collections: for each device id, the set of
timestamp document ids present (the validator only counts them). -/
structure DailyStore where
  dom : String → Finset String

/-- Apply one write of an accepted commit. -/
def DailyStore.applyWrite (s : DailyStore) (w : BatchWrite) : DailyStore :=
  ⟨fun d => if d = w.deviceId then insert w.timestamp (s.dom d) else s.dom d⟩

/-- Apply one commit: atomic, all-or-nothing. -/
def DailyStore.applyCommit (s : DailyStore) (c : Commit) : DailyStore :=
  if c.ok then c.writes.foldl DailyStore.applyWrite s else s

/-- Apply a commit trace in order. -/
def applyCommits (s : DailyStore) (cs : List Commit) : DailyStore :=
  cs.foldl DailyStore.applyCommit s

/-- The validator's sample deep-check: the first enumerated source device's
raw RTDB reading-key count against its destination `daily` count.  `none`
when there is no (truthy) first device id.  Computed and logged only. -/
def validationSampleCheck (src : SourceData) (destDaily : DailyStore) : Option Bool :=
  match src.devices.head? with
  | none => none
  | some (firstDeviceId, _) =>
    if firstDeviceId = "" then none
    else
      some (decide (((src.readingsDaily.lookup firstDeviceId).getD []).length =
        (destDaily.dom firstDeviceId).card))

/-- `validateMigration`: overall validity is exactly
`rtdbUsersCount === firestoreUsersCount && rtdbDevicesCount === firestoreDevicesCount`;
the sample check is printed but takes no part in the result. -/
def validateMigration (src : SourceData) (destUsers : DocStore FirestoreUser)
    (destDevices : DocStore FirestoreDevice) (destDaily : DailyStore) : Bool :=
  let _sample := validationSampleCheck src destDaily
  decide (src.users.length = destUsers.dom.card) &&
    decide (src.devices.length = destDevices.dom.card)

/-! ## Migration Orchestrator (`migrate`, part_001 lines 284–333) -/

/-- Everything one orchestrator run consumes: the source dataset, the
initial destination stores, and the outcomes of all external I/O (write
acceptance, commit acceptance, read availability). -/
structure World where
  src : SourceData
  tgChats : List (String × ChatEntry)
  tgLastUpdateId : Option ℤ
  userWriteOk : String → Bool
  devWriteOk : String → Bool
  commitOk : ℕ → Bool
  tgReadChatsOk : Bool
  tgReadLuiOk : Bool
  tgWriteOk : Bool
  readUsersOk : Bool
  readDevicesOk : Bool
  readReadingsOk : Bool
  valReadUsersOk : Bool
  valReadDevicesOk : Bool
  valReadSampleOk : Bool
  destUsers0 : DocStore FirestoreUser
  destDevices0 : DocStore FirestoreDevice
  destDaily0 : DailyStore

/-- The users step: its top-level RTDB read can throw; per-record failures
are caught inside. -/
def migrateUsersE (w : World) : Except Unit (DocStore FirestoreUser × MigTally) :=
  if w.readUsersOk then Except.ok (migrateUsers w.src.users w.userWriteOk w.destUsers0)
  else Except.error ()

/-- The devices step, analogous. -/
def migrateDevicesE (w : World) : Except Unit (DocStore FirestoreDevice × MigTally) :=
  if w.readDevicesOk then Except.ok (migrateDevices w.src.devices w.devWriteOk w.destDevices0)
  else Except.error ()

/-- The readings step: its top-level read can throw, and the loop itself
can abort on the reused committed batch. -/
def migrateDailyReadingsE (w : World) : Except Unit ReadingsResult :=
  if w.readReadingsOk then migrateDailyReadings w.src.readingsDaily w.commitOk
  else Except.error ()

/-- Whether the validator attempts its sample read (a truthy first device
id exists). -/
def sampleCheckAttempted (src : SourceData) : Bool :=
  match src.devices.head? with
  | none => false
  | some (firstDeviceId, _) => firstDeviceId != ""

/-- The validator step: its own reads can throw (uncaught there); otherwise
it returns the validity verdict. -/
def validateMigrationE (w : World) (du : DocStore FirestoreUser)
    (dd : DocStore FirestoreDevice) (daily : DailyStore) : Except Unit Bool :=
  if w.valReadUsersOk = false then Except.error ()
  else if w.valReadDevicesOk = false then Except.error ()
  else if sampleCheckAttempted w.src && (w.valReadSampleOk = false) then Except.error ()
  else Except.ok (validateMigration w.src du dd daily)

/-- Destination user store after the users step. -/
def destUsersAfter (w : World) : DocStore FirestoreUser :=
  (migrateUsers w.src.users w.userWriteOk w.destUsers0).1

/-- Destination device store after the devices step. -/
def destDevicesAfter (w : World) : DocStore FirestoreDevice :=
  (migrateDevices w.src.devices w.devWriteOk w.destDevices0).1

/-- The body of the orchestrator's `try` block: the four migrators in
order (the Telegram step catches its own failures and cannot throw),
then the validator; produces the validator's verdict or the first
uncaught exception. -/
def runMigrationSteps (w : World) : Except Unit Bool :=
  match migrateUsersE w with
  | Except.error e => Except.error e
  | Except.ok (du, _) =>
    match migrateDevicesE w with
    | Except.error e => Except.error e
    | Except.ok (dd, _) =>
      match migrateDailyReadingsE w with
      | Except.error e => Except.error e
      | Except.ok rres =>
        let _tg := migrateTelegramData w.tgReadChatsOk w.tgReadLuiOk w.tgWriteOk
          w.tgChats w.tgLastUpdateId
        validateMigrationE w du dd (applyCommits w.destDaily0 rres.commits)

/-- `migrate` (part_001 lines 284–333): `process.exit(isValid ? 0 : 1)` on
a completed run, `process.exit(1)` from the `catch` on a critical error. -/
def migrate (w : World) : ℕ :=
  match runMigrationSteps w with
  | Except.ok isValid => if isValid then 0 else 1
  | Except.error _ => 1

/-- **C2**: overall validity is true iff the destination user count equals
the source user count and the destination device count equals the source
device count; the sample reading-count check (and everything about
readings) never affects the verdict. -/
theorem validateMigration_spec (src : SourceData) (du : DocStore FirestoreUser)
    (dd : DocStore FirestoreDevice) (daily : DailyStore) :
    (validateMigration src du dd daily = true ↔
      du.dom.card = src.users.length ∧ dd.dom.card = src.devices.length) ∧
    (∀ r₁ r₂ : List (String × List (String × RawReading)), ∀ d₁ d₂ : DailyStore,
      validateMigration { src with readingsDaily := r₁ } du dd d₁ =
        validateMigration { src with readingsDaily := r₂ } du dd d₂) := by
  refine ⟨?_, ?_⟩
  · simp only [validateMigration, Bool.and_eq_true, decide_eq_true_eq]
    constructor
    · rintro ⟨h₁, h₂⟩
      exact ⟨h₁.symm, h₂.symm⟩
    · rintro ⟨h₁, h₂⟩
      exact ⟨h₁.symm, h₂.symm⟩
  · intro r₁ r₂ d₁ d₂
    rfl

/-- **C3**: the orchestrator's exit code is 0 exactly when every step ran
without an uncaught exception and the validator reported validity; it is 1
exactly when the validator reported invalidity or some step threw.  The
last conjunct decomposes a successful verdict into the component steps
(the Telegram step catches internally and never forces exit 1). -/
theorem migrate_exit_code_spec (w : World) :
    (migrate w = 0 ∨ migrate w = 1) ∧
    (migrate w = 0 ↔ runMigrationSteps w = Except.ok true) ∧
    (migrate w = 1 ↔ runMigrationSteps w = Except.ok false ∨
      runMigrationSteps w = Except.error ()) ∧
    (runMigrationSteps w = Except.ok true ↔
      w.readUsersOk = true ∧ w.readDevicesOk = true ∧
      (∃ rres, migrateDailyReadingsE w = Except.ok rres ∧
        validateMigrationE w (destUsersAfter w) (destDevicesAfter w)
          (applyCommits w.destDaily0 rres.commits) = Except.ok true)) := by
  have h4 : runMigrationSteps w = Except.ok true ↔
      w.readUsersOk = true ∧ w.readDevicesOk = true ∧
      (∃ rres, migrateDailyReadingsE w = Except.ok rres ∧
        validateMigrationE w (destUsersAfter w) (destDevicesAfter w)
          (applyCommits w.destDaily0 rres.commits) = Except.ok true) := by
    unfold runMigrationSteps migrateUsersE migrateDevicesE destUsersAfter destDevicesAfter
    by_cases hu : w.readUsersOk
    · by_cases hd : w.readDevicesOk
      · simp only [hu, hd, if_true]
        cases hr : migrateDailyReadingsE w with
        | error e =>
          cases e
          simp [hr]
        | ok rres =>
          simp [hr]
      · simp [hu, hd]
    · simp [hu]
  have h123 : (migrate w = 0 ∨ migrate w = 1) ∧
      (migrate w = 0 ↔ runMigrationSteps w = Except.ok true) ∧
      (migrate w = 1 ↔ runMigrationSteps w = Except.ok false ∨
        runMigrationSteps w = Except.error ()) := by
    cases h : runMigrationSteps w with
    | ok b => cases b <;> simp [migrate, h]
    | error e =>
      cases e
      simp [migrate, h]
  exact ⟨h123.1, h123.2.1, h123.2.2, h4⟩

/-! ## Device migration: idempotence (C4) and user id conversion (C6) -/

/-- Extensionality for document stores. -/
theorem DocStore.ext {V : Type} {a b : DocStore V}
    (hdocs : a.docs = b.docs) (hdom : a.dom = b.dom) : a = b := by
  cases a
  cases b
  cases hdocs
  cases hdom
  rfl

/-- The last successful write the devices loop issues for document id `k`
(later source entries overwrite earlier ones). -/
def lastDeviceWrite (writeOk : String → Bool) (k : String) :
    List (String × RTDBDevice) → Option FirestoreDevice
  | [] => none
  | (d, rd) :: rest =>
    match lastDeviceWrite writeOk k rest with
    | some v => some v
    | none =>
      if d = k then
        if writeOk d then some (transformDevice rd) else none
      else none

/-- The device ids the loop successfully writes. -/
def successIds (writeOk : String → Bool)
    (devs : List (String × RTDBDevice)) : Finset String :=
  ((devs.filter (fun p => writeOk p.1)).map Prod.fst).toFinset

theorem migrateDevices_fold_docs (writeOk : String → Bool)
    (devs : List (String × RTDBDevice)) :
    ∀ (s : DocStore FirestoreDevice) (t : MigTally) (k : String),
    ((devs.foldl (migrateDevicesStep writeOk) (s, t)).1).docs k =
      (match lastDeviceWrite writeOk k devs with
       | some v => some v
       | none => s.docs k) := by
  induction devs with
  | nil => intro s t k; rfl
  | cons p rest ih =>
    intro s t k
    obtain ⟨d, rd⟩ := p
    simp only [List.foldl_cons, migrateDevicesStep]
    by_cases hw : writeOk d
    · simp only [hw, if_true]
      rw [ih]
      cases hlw : lastDeviceWrite writeOk k rest with
      | some v => simp [lastDeviceWrite, hlw]
      | none =>
        simp only [lastDeviceWrite, hlw]
        by_cases hk : d = k
        · subst hk
          simp [DocStore.set, hw]
        · have hk2 : ¬(k = d) := fun h => hk h.symm
          simp [DocStore.set, hk, hk2]
    · simp only [hw, if_false]
      rw [ih]
      cases hlw : lastDeviceWrite writeOk k rest with
      | some v => simp [lastDeviceWrite, hlw]
      | none =>
        simp only [lastDeviceWrite, hlw]
        by_cases hk : d = k
        · subst hk
          simp [hw]
        · simp [hk]

theorem migrateDevices_fold_dom (writeOk : String → Bool)
    (devs : List (String × RTDBDevice)) :
    ∀ (s : DocStore FirestoreDevice) (t : MigTally),
    ((devs.foldl (migrateDevicesStep writeOk) (s, t)).1).dom =
      s.dom ∪ successIds writeOk devs := by
  induction devs with
  | nil =>
    intro s t
    simp [successIds]
  | cons p rest ih =>
    intro s t
    obtain ⟨d, rd⟩ := p
    simp only [List.foldl_cons, migrateDevicesStep]
    by_cases hw : writeOk d
    · simp only [hw, if_true]
      rw [ih]
      simp [successIds, DocStore.set, hw, List.filter_cons,
        Finset.insert_union, Finset.union_insert]
    · simp only [hw, if_false]
      rw [ih]
      simp [successIds, List.filter_cons, hw]

theorem migrateDevices_fold_tally (writeOk : String → Bool)
    (devs : List (String × RTDBDevice)) :
    ∀ (s s' : DocStore FirestoreDevice) (t : MigTally),
    (devs.foldl (migrateDevicesStep writeOk) (s, t)).2 =
      (devs.foldl (migrateDevicesStep writeOk) (s', t)).2 := by
  induction devs with
  | nil => intro s s' t; rfl
  | cons p rest ih =>
    intro s s' t
    obtain ⟨d, rd⟩ := p
    simp only [List.foldl_cons, migrateDevicesStep]
    by_cases hw : writeOk d
    · simp only [hw, if_true]
      exact ih _ _ _
    · simp only [hw, if_false]
      exact ih _ _ _

/-- **C4**: running the devices migration twice on the same source data and
write outcomes leaves the destination exactly as after the first run (each
write is a whole-document overwrite of the same transformed record) and
reports the same `{migratedCount, errorCount}` tally. -/
theorem migrateDevices_idempotent (devs : List (String × RTDBDevice))
    (writeOk : String → Bool) (dest : DocStore FirestoreDevice) :
    (migrateDevices devs writeOk (migrateDevices devs writeOk dest).1).1 =
      (migrateDevices devs writeOk dest).1 ∧
    (migrateDevices devs writeOk (migrateDevices devs writeOk dest).1).2 =
      (migrateDevices devs writeOk dest).2 := by
  constructor
  · apply DocStore.ext
    · funext k
      show ((devs.foldl (migrateDevicesStep writeOk)
        ((migrateDevices devs writeOk dest).1, ⟨0, 0⟩)).1).docs k = _
      rw [migrateDevices_fold_docs]
      cases hlw : lastDeviceWrite writeOk k devs with
      | some v =>
        show some v = (migrateDevices devs writeOk dest).1.docs k
        unfold migrateDevices
        rw [migrateDevices_fold_docs, hlw]
      | none => rfl
    · show ((devs.foldl (migrateDevicesStep writeOk)
        ((migrateDevices devs writeOk dest).1, ⟨0, 0⟩)).1).dom = _
      rw [migrateDevices_fold_dom]
      unfold migrateDevices
      rw [migrateDevices_fold_dom]
      rw [Finset.union_assoc, Finset.union_self]
  · exact migrateDevices_fold_tally writeOk devs _ _ _

/-- **C6**: the `user_ids` set-as-mapping converts to the sequence of its
non-empty keys: no duplicates (for genuine objects, whose keys are
distinct), no empty string, membership is exactly the non-empty keys, and
the result is permutation-invariant in the input entry order. -/
theorem userIdsArray_spec (m : List (String × Bool))
    (hnd : (m.map Prod.fst).Nodup) :
    (userIdsArray (some m)).Nodup ∧
    "" ∉ userIdsArray (some m) ∧
    (∀ x, x ∈ userIdsArray (some m) ↔ x ∈ m.map Prod.fst ∧ x ≠ "") ∧
    (∀ m₂ : List (String × Bool), m.Perm m₂ →
      (userIdsArray (some m)).Perm (userIdsArray (some m₂))) := by
  refine ⟨hnd.filter _, ?_, ?_, ?_⟩
  · simp [userIdsArray]
  · intro x
    simp [userIdsArray, List.mem_filter]
  · intro m₂ hp
    exact (hp.map Prod.fst).filter _

/-- Witness for C6 at the claim's concrete input
`{ "u1": true, "u2": true, "": true }`: no duplicates, no empty string, and
the resulting sequence is literally `["u1", "u2"]`. -/
theorem userIdsArray_spec_witness :
    (userIdsArray (some [("u1", true), ("u2", true), ("", true)])).Nodup ∧
    "" ∉ userIdsArray (some [("u1", true), ("u2", true), ("", true)]) ∧
    userIdsArray (some [("u1", true), ("u2", true), ("", true)]) = ["u1", "u2"] :=
  ⟨(userIdsArray_spec _ (by decide)).1,
   (userIdsArray_spec _ (by decide)).2.1,
   by decide⟩

/-! ## Telegram send utilities (part_002) and number formatting -/

/-- `x || null` for optional strings: both absent and the falsy empty
string become null. -/
def orNull (s : Option String) : Option String :=
  match s with
  | none => none
  | some x => if x = "" then none else some x

/-- Two-digit zero-padded fraction part. -/
def padTwo (n : ℕ) : String :=
  if n < 10 then "0" ++ toString n else toString n

/-- `x.toFixed(2)` for a non-negative rational: round half-up to
hundredths, print integer part, dot, two fraction digits. -/
def toFixed2Abs (q : ℚ) : String :=
  toString (round (q * 100) / 100) ++ "." ++ padTwo ((round (q * 100) % 100).toNat)

/-- `x.toFixed(2)`: ECMAScript formats a negative number as `-` followed by
the format of its negation, and among the two nearest hundredths picks the
larger numerator (half-up on the magnitude).  JavaScript numbers are
modelled as `ℚ`; the claim's inputs are exact hundredths, where the two
agree. -/
def toFixed2 (q : ℚ) : String :=
  if q < 0 then "-" ++ toFixed2Abs (-q) else toFixed2Abs q

/-- The body of `sendEnergyAlert` after `.trim()` (identical in part_002
lines 52–79 and `test-energy-alerts.ts` lines 34–79): `timestamp` is the
formatted evaluation time. -/
def alertMessage (deviceName : String) (currentEnergy limit : ℚ)
    (timestamp : String) : String :=
  "⚠️ <b>Energy Limit Exceeded</b>\n\nDevice: <b>" ++ deviceName ++
    "</b>\nCurrent: <b>" ++ toFixed2 currentEnergy ++
    " kWh</b>\nLimit: <b>" ++ toFixed2 limit ++
    " kWh</b>\nOver by: <b>" ++ toFixed2 (currentEnergy - limit) ++
    " kWh</b>\n\nTime: " ++ timestamp ++
    " UTC\n\nPlease check your device to reduce energy consumption."

/-- `s` contains `sub` as a substring. -/
def ContainsSubstr (s sub : String) : Prop :=
  ∃ a b, s = a ++ sub ++ b

/-- Parsed JSON body of a Telegram API response. -/
structure TgResponse where
  ok : Bool
  description : Option String
  deriving Repr, DecidableEq

/-- `sendTelegramMessage` (part_002 lines 12–47): `false` when the bot
token is unset (or the falsy empty string), the HTTP call or JSON parse
throws (`Except.error`), or the API body reports not-ok; `true` only when
the body is ok.  The chat id and text do not influence the result. -/
def sendTelegramMessage (_chatId : ℤ) (_text : String) (token : Option String)
    (fetchResult : Except Unit TgResponse) : Bool :=
  match token with
  | none => false
  | some t =>
    if t = "" then false
    else
      match fetchResult with
      | Except.error _ => false
      | Except.ok data => data.ok
  
/-! ## Chat registry (`saveActiveChatId`, telegram-chats.ts) -/

/-- Replace-or-append of one chat entry keyed by chat id (a JS object
field assignment / a single-location set). -/
def setChatEntry : List (ℤ × ChatEntry) → ℤ → ChatEntry → List (ℤ × ChatEntry)
  | [], k, v => [(k, v)]
  | (k', v') :: rest, k, v =>
    if k' = k then (k, v) :: rest else (k', v') :: setChatEntry rest k v

/-- The Firestore `telegram/active_chats` document. -/
structure FsChatsDoc where
  chats : List (ℤ × ChatEntry)
  lastUpdateId : ℤ
  deriving Repr, DecidableEq

/-- Firestore `saveActiveChatId` (telegram-chats.ts lines 11–53) as a state
transform of the (possibly absent) document at `telegram/active_chats`:
on a missing document, create it with the one entry and `last_update_id: 0`;
otherwise update the `chats.{chatId}` field with a fresh entry whose
`addedAt` is `chatDoc.data()?.chats?.[chatId]?.addedAt || now` (the prior
value when present and truthy, else `now`). -/
def saveActiveChatId (chatId : ℤ) (username firstName : Option String)
    (now : ℕ) (doc : Option FsChatsDoc) : Option FsChatsDoc :=
  match doc with
  | none =>
    some ⟨[(chatId, ⟨chatId, orNull username, orNull firstName, now, now⟩)], 0⟩
  | some d =>
    some { d with
      chats := setChatEntry d.chats chatId
        ⟨chatId, orNull username, orNull firstName, now,
          match (d.chats.lookup chatId).map ChatEntry.addedAt with
          | some a => if a = 0 then now else a
          | none => now⟩ }

/-- RTDB `saveActiveChatId` (telegram-chats.ts lines 171–191): a plain
`set` of `telegram/active_chats/{chatId}` with a whole fresh entry —
including `addedAt: now`. -/
def saveActiveChatIdRTDB (chatId : ℤ) (username firstName : Option String)
    (now : ℕ) (chats : List (ℤ × ChatEntry)) : List (ℤ × ChatEntry) :=
  setChatEntry chats chatId
    ⟨chatId, orNull username, orNull firstName, now, now⟩

/-! ## Alert Evaluator (`testEnergyAlerts`, test-energy-alerts.ts) -/

/-- Device record as read by the alert evaluator (`interface DeviceData`). -/
structure DeviceData where
  name : String
  energyLimit : Option ℚ
  isOn : Option Bool
  userIds : Option (List (String × Bool))
  deriving Repr, DecidableEq

/-- User record as read for custom-name resolution. -/
structure UserData where
  devices : Option (List (String × String))
  deriving Repr, DecidableEq

/-- `Object.keys(readings).sort((a, b) => parseInt(b) - parseInt(a))[0]`:
the entry with the maximum numeric timestamp (first occurrence on ties,
as the sort is stable). -/
def latestReading : List (ℤ × JsObj) → Option (ℤ × JsObj)
  | [] => none
  | p :: rest =>
    match latestReading rest with
    | none => some p
    | some q => if q.1 > p.1 then some q else some p

/-- The first key of `device.user_ids`, when any. -/
def firstUserId (device : DeviceData) : Option String :=
  match device.userIds with
  | none => none
  | some m => (m.map Prod.fst).head?

/-- Everything one evaluator run consumes: stores keyed as the REST reads
are (chat ids as their numeric values), plus read/send outcomes. -/
structure AlertWorld where
  activeChats : Option (List (ℤ × ChatEntry))
  devices : Option (List (String × DeviceData))
  readings : String → Option (List (ℤ × JsObj))
  users : String → Option UserData
  readingsReadOk : String → Bool
  userReadOk : String → Bool
  sendOk : String → ℤ → Bool
  tokenSet : Bool
  dbUrlSet : Bool

/-- Display-name resolution for an over-limit device: the first associated
user's personal name for this device when present and truthy, else the
device's own stored name. -/
def resolveDisplayName (w : AlertWorld) (deviceId : String)
    (device : DeviceData) : String :=
  match device.userIds with
  | none => device.name
  | some m =>
    match m.map Prod.fst with
    | [] => device.name
    | uid :: _ =>
      match w.users uid with
      | none => device.name
      | some u =>
        match (u.devices.getD []).lookup deviceId with
        | none => device.name
        | some cn => if cn = "" then device.name else cn

/-- What processing one device contributes to the summary. -/
structure DeviceOutcome where
  overInc : ℕ
  msgs : List (ℤ × String)
  sentInc : ℕ
  deriving Repr, DecidableEq

/-- The over-limit branch: one alert message per registered chat
(broadcast, no filtering), `alertsSent` incremented per accepted send. -/
def broadcastAlert (w : AlertWorld) (chatIds : List ℤ) (deviceId : String)
    (device : DeviceData) (energy lim : ℚ) (evalTime : String) : DeviceOutcome :=
  ⟨1,
   chatIds.map (fun c =>
     (c, alertMessage (resolveDisplayName w deviceId device) energy lim evalTime)),
   (chatIds.filter (fun c => w.sendOk deviceId c)).length⟩

/-- Processing of one device (the body of the `for ... of Object.entries(devices)`
loop): skip on zero/unset limit; the per-device `try` catches a failing
readings read, a latest reading without a numeric `energy` (whose
`.toFixed(2)` throws), and a failing user read (which loses the broadcast
but keeps the over-limit count, since `devicesOverLimit++` ran first). -/
def checkDevice (w : AlertWorld) (chatIds : List ℤ) (deviceId : String)
    (device : DeviceData) (evalTime : String) : DeviceOutcome :=
  match device.energyLimit with
  | none => ⟨0, [], 0⟩
  | some lim =>
    if lim = 0 then ⟨0, [], 0⟩
    else if w.readingsReadOk deviceId = false then ⟨0, [], 0⟩
    else
      match w.readings deviceId with
      | none => ⟨0, [], 0⟩
      | some rs =>
        match latestReading rs with
        | none => ⟨0, [], 0⟩
        | some pr =>
          match pr.2.lookup "energy" with
          | none => ⟨0, [], 0⟩
          | some energy =>
            if energy > lim then
              match firstUserId device with
              | some uid =>
                if w.userReadOk uid = false then ⟨1, [], 0⟩
                else broadcastAlert w chatIds deviceId device energy lim evalTime
              | none => broadcastAlert w chatIds deviceId device energy lim evalTime
            else ⟨0, [], 0⟩

/-- The printed run summary, extended with the attempted messages. -/
structure AlertsSummary where
  devicesChecked : ℕ
  devicesOverLimit : ℕ
  alertsSent : ℕ
  activeChats : ℕ
  messages : List (ℤ × String)
  deriving Repr, DecidableEq

/-- The device loop, accumulating the summary counters. -/
def runDevices (w : AlertWorld) (chatIds : List ℤ) (evalTime : String) :
    List (String × DeviceData) → AlertsSummary → AlertsSummary
  | [], acc => acc
  | (deviceId, dev) :: rest, acc =>
    runDevices w chatIds evalTime rest
      { devicesChecked := acc.devicesChecked + 1,
        devicesOverLimit := acc.devicesOverLimit +
          (checkDevice w chatIds deviceId dev evalTime).overInc,
        alertsSent := acc.alertsSent +
          (checkDevice w chatIds deviceId dev evalTime).sentInc,
        activeChats := acc.activeChats,
        messages := acc.messages ++ (checkDevice w chatIds deviceId dev evalTime).msgs }

/-- `testEnergyAlerts` (test-energy-alerts.ts lines 95–240): exits early
(no summary) when the token or database URL is unset or either top-level
read returns null; otherwise runs the device loop and reports the
summary. -/
def testEnergyAlerts (w : AlertWorld) (evalTime : String) : Option AlertsSummary :=
  if w.tokenSet = false then none
  else if w.dbUrlSet = false then none
  else
    match w.activeChats with
    | none => none
    | some chats =>
      match w.devices with
      | none => none
      | some devs =>
        some (runDevices w (chats.map Prod.fst) evalTime devs
          ⟨0, 0, 0, (chats.map Prod.fst).length, []⟩)

/-! ## Claim C1 / C7 theorems -/

/-- 1001 distinct-timestamp, non-empty synthetic readings for one device. -/
def readings1001 : List (String × RawReading) :=
  (List.range 1001).map (fun i => (toString i, some [("energy", (1 : ℚ))]))

set_option maxRecDepth 40000 in
/-- **C1**: the claim says that with 1001 non-empty readings for one device
and no commit failure the Batch Writer issues commits of 500, 500 and 1 and
reports 1001 migrated readings.  The code never re-creates the batch after
the in-loop commit at 500 writes, so the 501st `batch.set` throws on the
committed batch and the readings migration aborts with an uncaught error:
it returns `Except.error`, issuing no further commits and no count. -/
theorem migrateDailyReadings_1001_aborts :
    migrateDailyReadings [("device-1", readings1001)] (fun _ => true) =
      Except.error () := by
  rfl

/-- **C7**: in any run of the readings migration that completes, the
reported total equals the number of non-empty readings across devices, the
writes submitted to the store are exactly the transforms of the non-empty
readings (empty ones are never written), and with every commit accepted the
error count is 0 (empty readings are not counted as errors). -/
theorem migrateDailyReadings_skips_empty
    {devs : List (String × List (String × RawReading))} {commitOk : ℕ → Bool}
    {r : ReadingsResult}
    (h : migrateDailyReadings devs commitOk = Except.ok r) :
    r.totalReadings = (devs.map (fun p => countNonEmpty p.2)).sum ∧
    commitsWrites r.commits = (devs.map (fun p => deviceWrites p.1 p.2)).flatten ∧
    ((∀ n, commitOk n = true) → r.errorCount = 0) := by
  have h2 : migrateReadingsDevices commitOk devs ⟨0, 0, 0, []⟩ = Except.ok r := h
  have hmain := migrateReadingsDevices_ok h2
  simpa [commitsWrites] using hmain

/-- A device with one non-empty reading, one empty-object reading and one
null reading. -/
def c7demo : List (String × List (String × RawReading)) :=
  [("d", [("1", some [("energy", 5)]), ("2", some []), ("3", none)])]

/-- The result the migration produces on `c7demo` with all commits
accepted. -/
def c7res : ReadingsResult :=
  ⟨1, 1, 0, [⟨[⟨"d", "1", ⟨0, 5, 0, 0, 0, 0⟩⟩], true⟩]⟩

/-- Witness for C7: the lemma applied at a concrete successful run. -/
theorem migrateDailyReadings_skips_empty_witness :
    c7res.totalReadings = (c7demo.map (fun p => countNonEmpty p.2)).sum ∧
    commitsWrites c7res.commits =
      (c7demo.map (fun p => deviceWrites p.1 p.2)).flatten ∧
    ((∀ n, (fun (_ : ℕ) => true) n = true) → c7res.errorCount = 0) :=
  migrateDailyReadings_skips_empty (by rfl)

/-! ## Claim C5 / C8 / C9 / C10 theorems -/

theorem latestReading_none {rs : List (ℤ × JsObj)} (h : latestReading rs = none) :
    rs = [] := by
  cases rs with
  | nil => rfl
  | cons a rest =>
    simp only [latestReading] at h
    cases hr : latestReading rest with
    | none => simp [hr] at h
    | some q =>
      simp only [hr] at h
      split at h <;> simp at h

theorem latestReading_mem {rs : List (ℤ × JsObj)} {p : ℤ × JsObj}
    (h : latestReading rs = some p) : p ∈ rs ∧ ∀ q ∈ rs, q.1 ≤ p.1 := by
  induction rs generalizing p with
  | nil => cases h
  | cons a rest ih =>
    simp only [latestReading] at h
    cases hr : latestReading rest with
    | none =>
      simp only [hr] at h
      cases h
      have hnil := latestReading_none hr
      subst hnil
      refine ⟨List.mem_cons_self _ _, ?_⟩
      intro q hq
      rcases List.mem_cons.mp hq with h3 | h3
      · exact le_of_eq (congrArg Prod.fst h3)
      · exact absurd h3 (List.not_mem_nil q)
    | some q =>
      simp only [hr] at h
      obtain ⟨hqm, hqmax⟩ := ih hr
      by_cases hgt : a.1 < q.1
      · rw [if_pos hgt] at h
        cases h
        refine ⟨List.mem_cons_of_mem _ hqm, ?_⟩
        intro r hrm
        rcases List.mem_cons.mp hrm with h3 | h3
        · rw [h3]
          exact le_of_lt hgt
        · exact hqmax r h3
      · rw [if_neg hgt] at h
        cases h
        refine ⟨List.mem_cons_self _ _, ?_⟩
        intro r hrm
        rcases List.mem_cons.mp hrm with h3 | h3
        · exact le_of_eq (congrArg Prod.fst h3)
        · exact le_trans (hqmax r h3) (not_lt.mp hgt)

/-- **C5**: (a) a device with unset or zero `energyLimit` contributes
nothing regardless of readings; (b) with a positive limit and readable
readings, alerts are broadcast to every registered chat exactly when the
latest reading's energy is strictly above the limit; (c) the latest
reading is the one with the maximum numeric timestamp; (d) the alert text
contains the current energy, the limit and the overage, each `toFixed(2)`;
(e) the claim's concrete values: 1250.50 / 1000.00 / 250.50, and 999.99
is not above a limit of 1000. -/
theorem alert_evaluation_spec (w : AlertWorld) (chatIds : List ℤ)
    (deviceId : String) (device : DeviceData) (evalTime : String) :
    ((device.energyLimit = none ∨ device.energyLimit = some 0) →
      checkDevice w chatIds deviceId device evalTime = ⟨0, [], 0⟩) ∧
    (∀ (lim : ℚ) (rs : List (ℤ × JsObj)) (pr : ℤ × JsObj) (energy : ℚ),
      device.energyLimit = some lim → lim ≠ 0 →
      w.readingsReadOk deviceId = true →
      w.readings deviceId = some rs →
      latestReading rs = some pr →
      pr.2.lookup "energy" = some energy →
      (∀ uid, firstUserId device = some uid → w.userReadOk uid = true) →
      (checkDevice w chatIds deviceId device evalTime).msgs =
        (if energy > lim then
          chatIds.map (fun c =>
            (c, alertMessage (resolveDisplayName w deviceId device) energy lim evalTime))
         else [])) ∧
    (∀ (rs : List (ℤ × JsObj)) (pr : ℤ × JsObj),
      latestReading rs = some pr → pr ∈ rs ∧ ∀ q ∈ rs, q.1 ≤ pr.1) ∧
    (∀ (name : String) (e lim : ℚ) (ts : String),
      ContainsSubstr (alertMessage name e lim ts) (toFixed2 e) ∧
      ContainsSubstr (alertMessage name e lim ts) (toFixed2 lim) ∧
      ContainsSubstr (alertMessage name e lim ts) (toFixed2 (e - lim))) ∧
    toFixed2 (2501/2 : ℚ) = "1250.50" ∧
    toFixed2 (1000 : ℚ) = "1000.00" ∧
    toFixed2 ((2501/2 : ℚ) - 1000) = "250.50" ∧
    ¬((99999/100 : ℚ) > 1000) := by
  refine ⟨?_, ?_, fun rs pr h => latestReading_mem h, ?_, ?_, ?_, ?_, by norm_num⟩
  · rintro (h | h) <;> simp [checkDevice, h]
  · intro lim rs pr energy hlim hlim0 hro hrs hlr he huser
    simp only [checkDevice, hlim, hlim0, hro, hrs, hlr, he, if_false]
    by_cases hover : energy > lim
    · simp only [if_pos hover]
      cases hfu : firstUserId device with
      | none => rfl
      | some uid =>
        have huid := huser uid hfu
        simp [huid, broadcastAlert]
    · simp only [if_neg hover]
      rfl
  · intro name e lim ts
    refine ⟨⟨"⚠️ <b>Energy Limit Exceeded</b>\n\nDevice: <b>" ++ name ++
        "</b>\nCurrent: <b>",
      " kWh</b>\nLimit: <b>" ++ toFixed2 lim ++ " kWh</b>\nOver by: <b>" ++
        toFixed2 (e - lim) ++ " kWh</b>\n\nTime: " ++ ts ++
        " UTC\n\nPlease check your device to reduce energy consumption.", ?_⟩,
      ⟨"⚠️ <b>Energy Limit Exceeded</b>\n\nDevice: <b>" ++ name ++
        "</b>\nCurrent: <b>" ++ toFixed2 e ++ " kWh</b>\nLimit: <b>",
      " kWh</b>\nOver by: <b>" ++ toFixed2 (e - lim) ++ " kWh</b>\n\nTime: " ++
        ts ++ " UTC\n\nPlease check your device to reduce energy consumption.", ?_⟩,
      ⟨"⚠️ <b>Energy Limit Exceeded</b>\n\nDevice: <b>" ++ name ++
        "</b>\nCurrent: <b>" ++ toFixed2 e ++ " kWh</b>\nLimit: <b>" ++
        toFixed2 lim ++ " kWh</b>\nOver by: <b>",
      " kWh</b>\n\nTime: " ++ ts ++
        " UTC\n\nPlease check your device to reduce energy consumption.", ?_⟩⟩ <;>
      simp [alertMessage, String.append_assoc]
  · have h1 : round ((2501/2 : ℚ) * 100) = 125050 := by norm_num [round_eq]
    have h0 : ¬((2501/2 : ℚ) < 0) := by norm_num
    rw [toFixed2, if_neg h0, toFixed2Abs, h1]
    rfl
  · have h1 : round ((1000 : ℚ) * 100) = 100000 := by norm_num [round_eq]
    have h0 : ¬((1000 : ℚ) < 0) := by norm_num
    rw [toFixed2, if_neg h0, toFixed2Abs, h1]
    rfl
  · have h1 : round (((2501/2 : ℚ) - 1000) * 100) = 25050 := by norm_num [round_eq]
    have h0 : ¬(((2501/2 : ℚ) - 1000) < 0) := by norm_num
    rw [toFixed2, if_neg h0, toFixed2Abs, h1]
    rfl

/-- A registered chat for the concrete scenarios. -/
def demoChat : ChatEntry := ⟨99, none, none, 0, 0⟩

/-- `{energyLimit: 1000}` device, no associated users. -/
def demoDevice : DeviceData := ⟨"Device 1", some 1000, some true, none⟩

/-- `{energyLimit: 0}` device. -/
def demoDeviceNoLimit : DeviceData := ⟨"Device 2", some 0, some true, none⟩

/-- Another `{energyLimit: 1000}` device, used with a 999.99 reading. -/
def demoDevice999 : DeviceData := ⟨"Device 3", some 1000, some true, none⟩

/-- One registered chat; `dev1` has latest energy 1250.50, any other
device 999.99; all reads and sends succeed. -/
def demoWorld : AlertWorld :=
  ⟨some [(99, demoChat)],
   some [("dev1", demoDevice)],
   fun d => if d = "dev1" then some [(1, [("energy", 2501/2)])]
            else some [(1, [("energy", 99999/100)])],
   fun _ => none, fun _ => true, fun _ => true, fun _ _ => true, true, true⟩

/-- Witness for C5: the over-limit device broadcasts exactly one alert to
the one registered chat, the zero-limit device none, and the 999.99
device none. -/
theorem alert_evaluation_witness :
    (checkDevice demoWorld [99] "dev1" demoDevice "t").msgs =
      [(99, alertMessage "Device 1" (2501/2) 1000 "t")] ∧
    checkDevice demoWorld [99] "devX" demoDeviceNoLimit "t" = ⟨0, [], 0⟩ ∧
    (checkDevice demoWorld [99] "dev2" demoDevice999 "t").msgs = [] := by
  refine ⟨?_, ?_, ?_⟩
  · have h := (alert_evaluation_spec demoWorld [99] "dev1" demoDevice "t").2.1
      1000 [(1, [("energy", 2501/2)])] (1, [("energy", 2501/2)]) (2501/2)
      rfl (by norm_num) rfl rfl rfl rfl
      (fun uid h => absurd h (by simp [firstUserId, demoDevice]))
    rw [h, if_pos (by norm_num : (2501/2 : ℚ) > 1000)]
    rfl
  · exact (alert_evaluation_spec demoWorld [99] "devX" demoDeviceNoLimit "t").1
      (Or.inr rfl)
  · have h := (alert_evaluation_spec demoWorld [99] "dev2" demoDevice999 "t").2.1
      1000 [(1, [("energy", 99999/100)])] (1, [("energy", 99999/100)]) (99999/100)
      rfl (by norm_num) rfl rfl rfl rfl
      (fun uid h => absurd h (by simp [firstUserId, demoDevice999]))
    rw [h, if_neg (by norm_num : ¬((99999/100 : ℚ) > 1000))]

/-- `chats.{chatId}` field write: the updated entry is found back. -/
theorem lookup_setChatEntry (l : List (ℤ × ChatEntry)) (k : ℤ) (v : ChatEntry) :
    (setChatEntry l k v).lookup k = some v := by
  induction l with
  | nil => simp [setChatEntry, List.lookup]
  | cons p rest ih =>
    obtain ⟨k', v'⟩ := p
    simp only [setChatEntry]
    by_cases hk : k' = k
    · rw [if_pos hk]
      simp [List.lookup]
    · rw [if_neg hk]
      have hk2 : (k == k') = false := beq_eq_false_iff_ne.mpr (fun h => hk h.symm)
      simp [List.lookup, hk2, ih]

/-- **C8 (amended, Firestore variant)**: on an existing document, saving a
chat again writes a fresh entry whose `lastActive` is `now` and whose
`addedAt` is the prior entry's (nonzero) `addedAt`; a chat not yet present
gets `addedAt = now`; a missing document is created with the one entry and
`last_update_id: 0`; the document's `last_update_id` is never changed by an
update. -/
theorem saveActiveChatId_lifecycle (chatId : ℤ) (username firstName : Option String)
    (now : ℕ) (d : FsChatsDoc) :
    (∀ e : ChatEntry, d.chats.lookup chatId = some e → e.addedAt ≠ 0 →
      (saveActiveChatId chatId username firstName now (some d)).bind
          (fun d₂ => d₂.chats.lookup chatId) =
        some ⟨chatId, orNull username, orNull firstName, now, e.addedAt⟩) ∧
    (d.chats.lookup chatId = none →
      (saveActiveChatId chatId username firstName now (some d)).bind
          (fun d₂ => d₂.chats.lookup chatId) =
        some ⟨chatId, orNull username, orNull firstName, now, now⟩) ∧
    (saveActiveChatId chatId username firstName now none =
      some ⟨[(chatId, ⟨chatId, orNull username, orNull firstName, now, now⟩)], 0⟩) ∧
    (∀ d₂, saveActiveChatId chatId username firstName now (some d) = some d₂ →
      d₂.lastUpdateId = d.lastUpdateId) := by
  refine ⟨?_, ?_, rfl, ?_⟩
  · intro e he h0
    simp [saveActiveChatId, he, h0, lookup_setChatEntry]
  · intro he
    simp [saveActiveChatId, he, lookup_setChatEntry]
  · intro d₂ h
    simp only [saveActiveChatId, Option.some.injEq] at h
    rw [← h]

/-- Witness for C8: chat 7 with original `addedAt = 3` re-contacts at time
10; the stored entry keeps `addedAt = 3` and gets `lastActive = 10`. -/
theorem saveActiveChatId_lifecycle_witness :
    (saveActiveChatId 7 none none 10
        (some ⟨[(7, ⟨7, none, none, 5, 3⟩)], 42⟩)).bind
      (fun d₂ => d₂.chats.lookup 7) = some ⟨7, none, none, 10, 3⟩ :=
  (saveActiveChatId_lifecycle 7 none none 10 _).1 ⟨7, none, none, 5, 3⟩ rfl (by decide)

/-- **C8 counterexample**: the RTDB variant of `saveActiveChatId` (and the
discovery script's direct `set`) overwrites the whole entry on repeat
contact, so the original `addedAt = 5` becomes the save time 10. -/
theorem saveActiveChatIdRTDB_resets_addedAt :
    ((saveActiveChatIdRTDB 7 none none 10 [(7, ⟨7, none, none, 5, 5⟩)]).lookup 7).map
        ChatEntry.addedAt = some 10 ∧ (10 : ℕ) ≠ 5 := by
  exact ⟨rfl, by decide⟩

/-- **C9**: `sendTelegramMessage` always returns a boolean: true exactly
when a (truthy) token is set and the API call returned a body with
`ok: true`; false when the token is unset or empty, the call threw, or the
body reported not-ok.  (Thrown HTTP/JSON failures enter as `Except.error`
and are caught; the function itself is total.) -/
theorem sendTelegramMessage_spec (chatId : ℤ) (text : String)
    (token : Option String) (fetchResult : Except Unit TgResponse) :
    (sendTelegramMessage chatId text token fetchResult = true ↔
      ∃ t, token = some t ∧ t ≠ "" ∧
        ∃ data, fetchResult = Except.ok data ∧ data.ok = true) ∧
    sendTelegramMessage chatId text none fetchResult = false ∧
    sendTelegramMessage chatId text (some "") fetchResult = false ∧
    sendTelegramMessage chatId text token (Except.error ()) = false ∧
    (∀ desc, sendTelegramMessage chatId text token (Except.ok ⟨false, desc⟩) = false) := by
  refine ⟨?_, rfl, ?_, ?_, ?_⟩
  · cases token with
    | none => simp [sendTelegramMessage]
    | some t =>
      by_cases ht : t = ""
      · subst ht
        simp [sendTelegramMessage]
      · cases fetchResult with
        | error e =>
          cases e
          simp [sendTelegramMessage, ht]
        | ok data =>
          simp [sendTelegramMessage, ht]
  · simp [sendTelegramMessage]
  · cases token with
    | none => rfl
    | some t =>
      by_cases ht : t = "" <;> simp [sendTelegramMessage, ht]
  · intro desc
    cases token with
    | none => rfl
    | some t =>
      by_cases ht : t = "" <;> simp [sendTelegramMessage, ht]

/-- Witness for C9 (for its hypothesis-free conjuncts this is the iff at a
concrete accepted send). -/
theorem sendTelegramMessage_spec_witness :
    sendTelegramMessage 99 "hello" (some "tok") (Except.ok ⟨true, none⟩) = true :=
  (sendTelegramMessage_spec 99 "hello" (some "tok") (Except.ok ⟨true, none⟩)).1.mpr
    ⟨"tok", rfl, by decide, ⟨true, none⟩, rfl, rfl⟩

theorem checkDevice_bounds (w : AlertWorld) (chatIds : List ℤ) (deviceId : String)
    (device : DeviceData) (evalTime : String) :
    (checkDevice w chatIds deviceId device evalTime).overInc ≤ 1 ∧
    (checkDevice w chatIds deviceId device evalTime).sentInc ≤
      (checkDevice w chatIds deviceId device evalTime).overInc * chatIds.length := by
  unfold checkDevice broadcastAlert
  repeat' split
  all_goals simp [List.length_filter_le]

theorem runDevices_inv (w : AlertWorld) (chatIds : List ℤ) (evalTime : String) :
    ∀ (devs : List (String × DeviceData)) (acc : AlertsSummary),
    acc.devicesOverLimit ≤ acc.devicesChecked →
    acc.alertsSent ≤ acc.devicesOverLimit * chatIds.length →
    (runDevices w chatIds evalTime devs acc).devicesChecked =
      acc.devicesChecked + devs.length ∧
    (runDevices w chatIds evalTime devs acc).devicesOverLimit ≤
      (runDevices w chatIds evalTime devs acc).devicesChecked ∧
    (runDevices w chatIds evalTime devs acc).alertsSent ≤
      (runDevices w chatIds evalTime devs acc).devicesOverLimit * chatIds.length ∧
    (runDevices w chatIds evalTime devs acc).activeChats = acc.activeChats := by
  intro devs
  induction devs with
  | nil =>
    intro acc h1 h2
    exact ⟨by simp [runDevices], h1, h2, rfl⟩
  | cons p rest ih =>
    intro acc h1 h2
    obtain ⟨did, dev⟩ := p
    simp only [runDevices]
    obtain ⟨hb1, hb2⟩ := checkDevice_bounds w chatIds did dev evalTime
    have hnext := ih
      { devicesChecked := acc.devicesChecked + 1,
        devicesOverLimit := acc.devicesOverLimit +
          (checkDevice w chatIds did dev evalTime).overInc,
        alertsSent := acc.alertsSent +
          (checkDevice w chatIds did dev evalTime).sentInc,
        activeChats := acc.activeChats,
        messages := acc.messages ++ (checkDevice w chatIds did dev evalTime).msgs }
      (by simp only []; omega)
      (by
        simp only []
        calc acc.alertsSent + (checkDevice w chatIds did dev evalTime).sentInc ≤
            acc.devicesOverLimit * chatIds.length +
              (checkDevice w chatIds did dev evalTime).overInc * chatIds.length :=
              Nat.add_le_add h2 hb2
          _ = (acc.devicesOverLimit +
              (checkDevice w chatIds did dev evalTime).overInc) * chatIds.length := by
              rw [Nat.add_mul])
    obtain ⟨e1, e2, e3, e4⟩ := hnext
    refine ⟨?_, e2, e3, e4⟩
    rw [e1]
    simp only [List.length_cons]
    omega

/-- **C10**: whenever the evaluator reports a summary, `devicesChecked`
equals the number of devices read, `devicesOverLimit ≤ devicesChecked`,
`alertsSent ≤ devicesOverLimit × (number of active chats)`, and the
reported active-chat count is the number of registered chats. -/
theorem testEnergyAlerts_summary_invariants {w : AlertWorld} {evalTime : String}
    {devs : List (String × DeviceData)} {chats : List (ℤ × ChatEntry)}
    {s : AlertsSummary}
    (hdev : w.devices = some devs) (hch : w.activeChats = some chats)
    (h : testEnergyAlerts w evalTime = some s) :
    s.devicesChecked = devs.length ∧
    s.devicesOverLimit ≤ s.devicesChecked ∧
    s.alertsSent ≤ s.devicesOverLimit * chats.length ∧
    s.activeChats = chats.length := by
  simp only [testEnergyAlerts, hdev, hch] at h
  split at h
  · simp at h
  split at h
  · simp at h
  rw [Option.some.injEq] at h
  subst h
  have hrun := runDevices_inv w (chats.map Prod.fst) evalTime devs
    ⟨0, 0, 0, (chats.map Prod.fst).length, []⟩ (by simp) (by simp)
  obtain ⟨e1, e2, e3, e4⟩ := hrun
  refine ⟨by simpa using e1, e2, by simpa using e3, by simpa using e4⟩

/-- One registered chat, one device with no limit set (skipped). -/
def c10Chats : List (ℤ × ChatEntry) := [(99, demoChat)]

/-- The device list for the C10 concrete run. -/
def c10Devs : List (String × DeviceData) := [("dev1", ⟨"Device 1", none, none, none⟩)]

/-- A world whose evaluator run completes with a summary. -/
def c10World : AlertWorld :=
  ⟨some c10Chats, some c10Devs, fun _ => none, fun _ => none,
   fun _ => true, fun _ => true, fun _ _ => true, true, true⟩

/-- Witness for C10: the summary of the concrete run satisfies all four
invariants. -/
theorem testEnergyAlerts_summary_invariants_witness :
    (⟨1, 0, 0, 1, []⟩ : AlertsSummary).devicesChecked = c10Devs.length ∧
    (⟨1, 0, 0, 1, []⟩ : AlertsSummary).devicesOverLimit ≤
      (⟨1, 0, 0, 1, []⟩ : AlertsSummary).devicesChecked ∧
    (⟨1, 0, 0, 1, []⟩ : AlertsSummary).alertsSent ≤
      (⟨1, 0, 0, 1, []⟩ : AlertsSummary).devicesOverLimit * c10Chats.length ∧
    (⟨1, 0, 0, 1, []⟩ : AlertsSummary).activeChats = c10Chats.length :=
  testEnergyAlerts_summary_invariants
    (show c10World.devices = some c10Devs from rfl)
    (show c10World.activeChats = some c10Chats from rfl)
    (show testEnergyAlerts c10World "t" = some ⟨1, 0, 0, 1, []⟩ from rfl)

end AideNext
